import Mathlib

/-!
# Verification of the Chatterbox message-board backend

Shallow embedding of `server/app.py` and `server/models.py`: a Flask CRUD API
over a single `messages` table.  JSON values are modelled by an inductive type
(Python truthiness included, since the handlers validate by truthiness);
timestamps are modelled as natural numbers (the claims under study do not
depend on the calendar structure of `datetime`, only on "now" being stamped);
the SQLite table is a list of rows in insertion order together with the next
auto-increment primary key.  Each route handler becomes a pure function from
the request data, the current time, the store state, and the outcome of the
`db.session.commit()` call (success, `IntegrityError`, or any other
exception) to a triple of HTTP status, JSON response body, and the store
state after the request (rollback leaves the persisted state unchanged).

A subtlety of the source reproduced here: the `@app.errorhandler` functions
`bad_request` / `not_found` / `internal_server_error` compute their message as
`str(error) if isinstance(error, Exception) else <generic>`.  The routes call
them directly with `str` arguments, and a `str` is not an `Exception`, so the
JSON error body is always the generic string ("Bad Request",
"Resource not found", "Internal Server Error"), never the specific message
built at the call site.
-/

/-- A parsed JSON value, as Python represents it after `request.get_json()`. -/
inductive JsonValue where
  | jnull : JsonValue
  | jbool : Bool → JsonValue
  | jnum : Int → JsonValue
  | jstr : String → JsonValue
  | jarr : List JsonValue → JsonValue
  | jobj : List (String × JsonValue) → JsonValue
deriving Repr

mutual

/-- Structural boolean equality on JSON values (the nested inductive rules
out the derived instance, so decidable equality is built by hand). -/
def JsonValue.beq : JsonValue → JsonValue → Bool
  | .jnull, .jnull => true
  | .jbool a, .jbool b => a == b
  | .jnum a, .jnum b => a == b
  | .jstr a, .jstr b => a == b
  | .jarr a, .jarr b => JsonValue.beqList a b
  | .jobj a, .jobj b => JsonValue.beqObj a b
  | _, _ => false

/-- Elementwise `JsonValue.beq` on arrays. -/
def JsonValue.beqList : List JsonValue → List JsonValue → Bool
  | [], [] => true
  | x :: xs, y :: ys => JsonValue.beq x y && JsonValue.beqList xs ys
  | _, _ => false

/-- Entrywise `JsonValue.beq` on objects. -/
def JsonValue.beqObj : List (String × JsonValue) → List (String × JsonValue) → Bool
  | [], [] => true
  | (k, v) :: xs, (k2, v2) :: ys =>
    k == k2 && JsonValue.beq v v2 && JsonValue.beqObj xs ys
  | _, _ => false

end

mutual

def JsonValue.beq_refl : ∀ a : JsonValue, JsonValue.beq a a = true
  | .jnull => rfl
  | .jbool a => by simp [JsonValue.beq]
  | .jnum a => by simp [JsonValue.beq]
  | .jstr a => by simp [JsonValue.beq]
  | .jarr a => by simp [JsonValue.beq, JsonValue.beqList_refl a]
  | .jobj a => by simp [JsonValue.beq, JsonValue.beqObj_refl a]

def JsonValue.beqList_refl : ∀ l : List JsonValue, JsonValue.beqList l l = true
  | [] => rfl
  | x :: xs => by
      simp [JsonValue.beqList, JsonValue.beq_refl x, JsonValue.beqList_refl xs]

def JsonValue.beqObj_refl :
    ∀ l : List (String × JsonValue), JsonValue.beqObj l l = true
  | [] => rfl
  | (k, v) :: xs => by
      simp [JsonValue.beqObj, JsonValue.beq_refl v, JsonValue.beqObj_refl xs]

end

mutual

def JsonValue.eq_of_beq : ∀ a b : JsonValue, JsonValue.beq a b = true → a = b
  | .jnull, .jnull, _ => rfl
  | .jnull, .jbool _, h => by simp [JsonValue.beq] at h
  | .jbool a, .jbool b, h => by simp [JsonValue.beq] at h; simp [h]
  | .jnum a, .jnum b, h => by simp [JsonValue.beq] at h; simp [h]
  | .jstr a, .jstr b, h => by simp [JsonValue.beq] at h; simp [h]
  | .jarr a, .jarr b, h => by
      simp only [JsonValue.beq] at h
      exact congrArg JsonValue.jarr (JsonValue.eqList_of_beq a b h)
  | .jobj a, .jobj b, h => by
      simp only [JsonValue.beq] at h
      exact congrArg JsonValue.jobj (JsonValue.eqObj_of_beq a b h)
  | .jnull, .jnum _, h => by simp [JsonValue.beq] at h
  | .jnull, .jstr _, h => by simp [JsonValue.beq] at h
  | .jnull, .jarr _, h => by simp [JsonValue.beq] at h
  | .jnull, .jobj _, h => by simp [JsonValue.beq] at h
  | .jbool _, .jnull, h => by simp [JsonValue.beq] at h
  | .jbool _, .jnum _, h => by simp [JsonValue.beq] at h
  | .jbool _, .jstr _, h => by simp [JsonValue.beq] at h
  | .jbool _, .jarr _, h => by simp [JsonValue.beq] at h
  | .jbool _, .jobj _, h => by simp [JsonValue.beq] at h
  | .jnum _, .jnull, h => by simp [JsonValue.beq] at h
  | .jnum _, .jbool _, h => by simp [JsonValue.beq] at h
  | .jnum _, .jstr _, h => by simp [JsonValue.beq] at h
  | .jnum _, .jarr _, h => by simp [JsonValue.beq] at h
  | .jnum _, .jobj _, h => by simp [JsonValue.beq] at h
  | .jstr _, .jnull, h => by simp [JsonValue.beq] at h
  | .jstr _, .jbool _, h => by simp [JsonValue.beq] at h
  | .jstr _, .jnum _, h => by simp [JsonValue.beq] at h
  | .jstr _, .jarr _, h => by simp [JsonValue.beq] at h
  | .jstr _, .jobj _, h => by simp [JsonValue.beq] at h
  | .jarr _, .jnull, h => by simp [JsonValue.beq] at h
  | .jarr _, .jbool _, h => by simp [JsonValue.beq] at h
  | .jarr _, .jnum _, h => by simp [JsonValue.beq] at h
  | .jarr _, .jstr _, h => by simp [JsonValue.beq] at h
  | .jarr _, .jobj _, h => by simp [JsonValue.beq] at h
  | .jobj _, .jnull, h => by simp [JsonValue.beq] at h
  | .jobj _, .jbool _, h => by simp [JsonValue.beq] at h
  | .jobj _, .jnum _, h => by simp [JsonValue.beq] at h
  | .jobj _, .jstr _, h => by simp [JsonValue.beq] at h
  | .jobj _, .jarr _, h => by simp [JsonValue.beq] at h

def JsonValue.eqList_of_beq :
    ∀ a b : List JsonValue, JsonValue.beqList a b = true → a = b
  | [], [], _ => rfl
  | [], _ :: _, h => by simp [JsonValue.beqList] at h
  | _ :: _, [], h => by simp [JsonValue.beqList] at h
  | x :: xs, y :: ys, h => by
      simp only [JsonValue.beqList, Bool.and_eq_true] at h
      rw [JsonValue.eq_of_beq x y h.1, JsonValue.eqList_of_beq xs ys h.2]

def JsonValue.eqObj_of_beq :
    ∀ a b : List (String × JsonValue), JsonValue.beqObj a b = true → a = b
  | [], [], _ => rfl
  | [], _ :: _, h => by simp [JsonValue.beqObj] at h
  | _ :: _, [], h => by simp [JsonValue.beqObj] at h
  | (k, v) :: xs, (k2, v2) :: ys, h => by
      simp only [JsonValue.beqObj, Bool.and_eq_true] at h
      obtain ⟨⟨hk, hv⟩, ht⟩ := h
      rw [JsonValue.eq_of_beq v v2 hv, JsonValue.eqObj_of_beq xs ys ht]
      simp at hk
      rw [hk]

end

instance : DecidableEq JsonValue := fun a b =>
  if h : JsonValue.beq a b = true then isTrue (JsonValue.eq_of_beq a b h)
  else isFalse (fun he => h (he ▸ JsonValue.beq_refl a))

/-- Python truthiness (`bool(x)`) of a parsed JSON value: `None`, `False`,
`0`, `""`, `[]` and `{}` are falsy, everything else truthy.  The handlers'
`if not body` checks are exactly `¬ truthy body`. -/
def truthy : JsonValue → Bool
  | .jnull => false
  | .jbool b => b
  | .jnum n => n != 0
  | .jstr s => s != ""
  | .jarr l => !l.isEmpty
  | .jobj l => !l.isEmpty

/-- A row of the `messages` table (`models.py`).  `body` and `username` are
`JsonValue` because SQLite does not enforce column types and the handlers
store whatever truthy JSON value the request carried. -/
structure Message where
  id : Nat
  body : JsonValue
  username : JsonValue
  created_at : Nat
  updated_at : Option Nat
deriving DecidableEq, Repr

/-- Model of `SerializerMixin.to_dict`: serialize one row to a JSON object with all
five columns (a `None` timestamp serializes to JSON null). -/
def Message.to_dict (m : Message) : JsonValue :=
  .jobj [("id", .jnum m.id), ("body", m.body), ("username", m.username),
         ("created_at", .jnum m.created_at),
         ("updated_at", match m.updated_at with
                        | none => .jnull
                        | some t => .jnum t)]

/-- The persisted store: rows in insertion order plus the next
auto-increment primary key value. -/
structure DBState where
  rows : List Message
  nextId : Nat
deriving DecidableEq, Repr

/-- Outcome of `db.session.commit()` for a mutating request, letting the
embedding cover the `except IntegrityError` / `except Exception` arms. -/
inductive CommitOutcome where
  | success : CommitOutcome
  | integrityError : CommitOutcome
  | otherError : String → CommitOutcome
deriving DecidableEq, Repr

/-- What a handler hands back: HTTP status, JSON response body, and the
persisted store after the request. -/
structure HandlerResult where
  status : Nat
  respBody : JsonValue
  state : DBState
deriving DecidableEq, Repr

/-- Shape of every error body, `\x7b"error": msg\x7d`, as every error handler returns. -/
def errJson (msg : String) : JsonValue := .jobj [("error", .jstr msg)]

/-- Model of `bad_request(...)` as invoked by the routes: the argument is a `str`, not
an `Exception`, so the body is the generic message. -/
def bad_request (st : DBState) : HandlerResult :=
  ⟨400, errJson "Bad Request", st⟩

/-- Model of `not_found(...)` as invoked by the routes: the argument is a `str`, not
an `Exception`, so the body is the generic message. -/
def not_found (st : DBState) : HandlerResult :=
  ⟨404, errJson "Resource not found", st⟩

/-- Model of `internal_server_error(...)` as invoked by the routes: the argument is a
`str`, not an `Exception`, so the body is the generic message. -/
def internal_server_error (st : DBState) : HandlerResult :=
  ⟨500, errJson "Internal Server Error", st⟩

/-- Model of `Message.query.get(id)`: primary-key lookup. -/
def findById (st : DBState) (id : Nat) : Option Message :=
  st.rows.find? (fun r => r.id == id)

/-- Stable insertion of a row into a list already sorted by `created_at`:
the row goes before the first element with a `created_at` that is not
smaller, so equal keys keep their original relative order. -/
def insertByCreated (x : Message) : List Message → List Message
  | [] => [x]
  | y :: ys =>
    if x.created_at ≤ y.created_at then x :: y :: ys
    else y :: insertByCreated x ys

/-- Model of `Message.query.order_by(Message.created_at.asc()).all()`: the rows
sorted by `created_at` ascending (stable, so insertion order is kept
among equal timestamps). -/
def orderByCreatedAtAsc : List Message → List Message
  | [] => []
  | x :: xs => insertByCreated x (orderByCreatedAtAsc xs)

/-- Handler for `GET /messages` (`get_messages` in app.py): list every row sorted by
`created_at` ascending, serialized; the store is read-only here.  The query
and serialization in this model are total, so the `except` arm returning 500
is unreachable. -/
def get_messages (st : DBState) : HandlerResult :=
  ⟨200, .jarr ((orderByCreatedAtAsc st.rows).map Message.to_dict), st⟩

/-- The parsed JSON request body: `none` when `request.get_json()` yields
`None`, otherwise the key/value pairs of the JSON object. -/
def RequestData : Type := Option (List (String × JsonValue))

/-- Handler for `POST /messages` (`create_message` in app.py).
Python control flow: `if not data or not all(k in data for k in ('body',
'username'))` → 400; `if not body or not username` → 400; otherwise insert
a row with `created_at` defaulted to now and `updated_at` `None`, and
commit (`IntegrityError` → rollback + `bad_request`; any other exception →
rollback + 500). -/
def create_message (data : RequestData) (now : Nat) (st : DBState)
    (commit : CommitOutcome) : HandlerResult :=
  match data with
  | none => bad_request st
  | some d =>
    if d.isEmpty || (d.lookup "body").isNone || (d.lookup "username").isNone then
      bad_request st
    else
      let body := (d.lookup "body").getD .jnull
      let username := (d.lookup "username").getD .jnull
      if !truthy body || !truthy username then
        bad_request st
      else
        match commit with
        | .success =>
          let m : Message := ⟨st.nextId, body, username, now, none⟩
          ⟨201, m.to_dict, ⟨st.rows ++ [m], st.nextId + 1⟩⟩
        | .integrityError => bad_request st
        | .otherError _ => internal_server_error st

/-- Handler for `PATCH /messages/<int:id>` (`update_message` in app.py).
Python control flow: `Message.query.get(id)` first, 404 if absent; then
`if not data or 'body' not in data` → 400; `if not new_body` → 400;
otherwise set `body` and `updated_at = now` on the found row and commit
(`IntegrityError` → rollback + `bad_request`; any other exception →
rollback + 500; rollback leaves the persisted store unchanged). -/
def update_message (id : Nat) (data : RequestData) (now : Nat) (st : DBState)
    (commit : CommitOutcome) : HandlerResult :=
  match findById st id with
  | none => not_found st
  | some m =>
    match data with
    | none => bad_request st
    | some d =>
      if d.isEmpty || (d.lookup "body").isNone then
        bad_request st
      else
        let new_body := (d.lookup "body").getD .jnull
        if !truthy new_body then
          bad_request st
        else
          match commit with
          | .success =>
            let m' : Message := ⟨m.id, new_body, m.username, m.created_at, some now⟩
            ⟨200, m'.to_dict,
             ⟨st.rows.map (fun r =>
                if r.id == id then ⟨r.id, new_body, r.username, r.created_at, some now⟩
                else r),
              st.nextId⟩⟩
          | .integrityError => bad_request st
          | .otherError _ => internal_server_error st

/-- Handler for `DELETE /messages/<int:id>` (`delete_message` in app.py): 404 if the id
is absent; otherwise delete the row and commit (`except Exception` catches
everything, `IntegrityError` included → rollback + 500). -/
def delete_message (id : Nat) (st : DBState)
    (commit : CommitOutcome) : HandlerResult :=
  match findById st id with
  | none => not_found st
  | some _ =>
    match commit with
    | .success =>
      ⟨200,
       .jobj [("message",
               .jstr ("Message with id " ++ toString id ++ " successfully deleted"))],
       ⟨st.rows.filter (fun r => r.id != id), st.nextId⟩⟩
    | .integrityError => internal_server_error st
    | .otherError _ => internal_server_error st

/-- Schema-level acceptance from `models.py`: `body` and `username` carry
`nullable=False` and nothing else — the persistence layer rejects NULL for
either column and imposes no further constraint (in particular no
non-emptiness check). -/
def schemaAccepts (body username : JsonValue) : Bool :=
  body != .jnull && username != .jnull

/-- Inserting a row directly into the store, bypassing the handlers: the
only gate is the schema of `models.py`. -/
def storeInsertRaw (st : DBState) (m : Message) : Option DBState :=
  if schemaAccepts m.body m.username then some ⟨st.rows ++ [m], st.nextId + 1⟩
  else none

/-- Well-formedness of a store state: primary keys are pairwise distinct and
below the auto-increment counter.  States reachable from the empty store
through the handlers satisfy it. -/
def DBState.WF (st : DBState) : Prop :=
  (st.rows.map Message.id).Nodup ∧ ∀ m ∈ st.rows, m.id < st.nextId

instance (st : DBState) : Decidable st.WF := by
  unfold DBState.WF
  infer_instance

/-- The whole validation of `create_message` as one predicate: data present,
both keys present in a non-empty object, both values truthy.  Exactly the
complement of the two 400 guards of the handler. -/
def createReqValid : RequestData → Bool
  | none => false
  | some d =>
    !(d.isEmpty || (d.lookup "body").isNone || (d.lookup "username").isNone) &&
      (truthy ((d.lookup "body").getD .jnull) &&
        truthy ((d.lookup "username").getD .jnull))

/-- The body validation of `update_message` as one predicate: data present,
`body` key present in a non-empty object, value truthy.  Exactly the
complement of the two 400 guards the handler runs after the id lookup. -/
def patchBodyValid : RequestData → Bool
  | none => false
  | some d =>
    !(d.isEmpty || (d.lookup "body").isNone) &&
      truthy ((d.lookup "body").getD .jnull)

/-- Every persisted row has truthy (in particular non-empty) `body` and
`username`. -/
def RowsValid (st : DBState) : Prop :=
  ∀ m ∈ st.rows, truthy m.body = true ∧ truthy m.username = true

/-- Ascending `created_at` with ties broken by ascending `id`. -/
def createdIdLex (a b : Message) : Prop :=
  a.created_at < b.created_at ∨ (a.created_at = b.created_at ∧ a.id < b.id)

/-- A store with no rows, as after `db.create_all()` on a fresh database. -/
def emptyStore : DBState := ⟨[], 1⟩

/-- A store holding a single message, used to instantiate theorems. -/
def oneRowStore : DBState := ⟨[⟨1, .jstr "hi", .jstr "ana", 10, none⟩], 2⟩

/-- A store with a `created_at` tie between ids 1 and 3, used to
instantiate the ordering theorems. -/
def tieStore : DBState :=
  ⟨[⟨1, .jstr "a", .jstr "u", 5, none⟩,
    ⟨2, .jstr "b", .jstr "v", 3, none⟩,
    ⟨3, .jstr "c", .jstr "w", 5, none⟩], 4⟩

/-- A store holding two messages, used to instantiate the frame theorems. -/
def twoRowStore : DBState :=
  ⟨[⟨1, .jstr "hi", .jstr "ana", 10, none⟩,
    ⟨2, .jstr "yo", .jstr "bob", 11, none⟩], 3⟩

/-! ## Claim C1: validation ordering -/

/-- C1 counterexample: a PATCH request whose JSON lacks the `body` field, sent
for an id that does not exist, returns 404 — not the 400 the claim requires —
because `update_message` runs `Message.query.get(id)` before any validation of
the request body. -/
theorem C1_counterexample :
    (update_message 1 (some [("username", .jstr "x")]) 0 emptyStore
        .success).status = 404 ∧
    (update_message 1 (some [("username", .jstr "x")]) 0 emptyStore
        .success).status ≠ 400 := by
  decide

/-- C1 (amended): the POST handler validates before any store operation and a
validation failure yields 400 with the store untouched, for every commit
outcome; the PATCH handler instead performs the existence lookup first, so a
missing or empty `body` yields 400 (store unchanged) only when the id exists,
and a nonexistent id yields 404 regardless of the body. -/
theorem C1_validation_short_circuit :
    (∀ data now st commit, createReqValid data = false →
        create_message data now st commit = bad_request st) ∧
    (∀ id data now st commit, findById st id = none →
        update_message id data now st commit = not_found st) ∧
    (∀ id data now st commit m, findById st id = some m →
        patchBodyValid data = false →
        update_message id data now st commit = bad_request st) := by
  refine ⟨?_, ?_, ?_⟩
  · intro data now st commit hv
    cases data with
    | none => rfl
    | some d =>
      simp only [create_message, createReqValid] at hv ⊢
      cases hg : (d.isEmpty || (d.lookup "body").isNone ||
          (d.lookup "username").isNone) <;>
        cases hb : truthy ((d.lookup "body").getD .jnull) <;>
          cases hu : truthy ((d.lookup "username").getD .jnull) <;>
            simp_all
  · intro id data now st commit h
    simp only [update_message, h]
  · intro id data now st commit m hm hv
    cases data with
    | none => simp [update_message, hm]
    | some d =>
      simp only [update_message, hm, patchBodyValid] at hv ⊢
      cases hg : (d.isEmpty || (d.lookup "body").isNone) <;>
        cases hb : truthy ((d.lookup "body").getD .jnull) <;>
          simp_all

theorem C1_validation_short_circuit_witness :
    createReqValid (some [("username", .jstr "bob")]) = false ∧
    create_message (some [("username", .jstr "bob")]) 3 oneRowStore .success =
        bad_request oneRowStore ∧
    findById oneRowStore 7 = none ∧
    update_message 7 (some [("username", .jstr "x")]) 3 oneRowStore .success =
        not_found oneRowStore ∧
    update_message 1 (some [("body", .jstr "")]) 3 oneRowStore .success =
        bad_request oneRowStore :=
  ⟨by decide,
   C1_validation_short_circuit.1 _ 3 oneRowStore .success (by decide),
   by decide,
   C1_validation_short_circuit.2.1 7 _ 3 oneRowStore .success (by decide),
   C1_validation_short_circuit.2.2 1 _ 3 oneRowStore .success
     ⟨1, .jstr "hi", .jstr "ana", 10, none⟩ (by decide) (by decide)⟩

/-! ## Claim C2: IntegrityError handling -/

/-- C2 counterexample: a valid POST (and a valid PATCH on an existing id)
whose commit raises `IntegrityError` returns status 400, not the 500 the
claim requires — both handlers route `IntegrityError` to `bad_request`, and
only other exceptions to `internal_server_error`. -/
theorem C2_counterexample :
    (create_message (some [("body", .jstr "hi"), ("username", .jstr "ana")])
        0 emptyStore .integrityError).status = 400 ∧
    (create_message (some [("body", .jstr "hi"), ("username", .jstr "ana")])
        0 emptyStore .integrityError).status ≠ 500 ∧
    (update_message 1 (some [("body", .jstr "new")]) 20 oneRowStore
        .integrityError).status = 400 ∧
    (update_message 1 (some [("body", .jstr "new")]) 20 oneRowStore
        .integrityError).status ≠ 500 := by
  decide

/-- C2 (amended): if the commit of a valid Create or Update raises
`IntegrityError`, the handler rolls back (the store is returned unchanged)
and responds 400 with a JSON object carrying a single `error` string field;
any other exception during commit rolls back likewise and responds 500 with
the same error shape. -/
theorem C2_integrity_rollback :
    (∀ data now st, createReqValid data = true →
        create_message data now st .integrityError = bad_request st) ∧
    (∀ id data now st m, findById st id = some m → patchBodyValid data = true →
        update_message id data now st .integrityError = bad_request st) ∧
    (∀ data now st msg, createReqValid data = true →
        create_message data now st (.otherError msg) =
          internal_server_error st) ∧
    (∀ id data now st m msg, findById st id = some m →
        patchBodyValid data = true →
        update_message id data now st (.otherError msg) =
          internal_server_error st) := by
  refine ⟨?_, ?_, ?_, ?_⟩
  · intro data now st hv
    cases data with
    | none => simp [createReqValid] at hv
    | some d =>
      simp only [create_message, createReqValid] at hv ⊢
      cases hg : (d.isEmpty || (d.lookup "body").isNone ||
          (d.lookup "username").isNone) <;>
        cases hb : truthy ((d.lookup "body").getD .jnull) <;>
          cases hu : truthy ((d.lookup "username").getD .jnull) <;>
            simp_all
  · intro id data now st m hm hv
    cases data with
    | none => simp [patchBodyValid] at hv
    | some d =>
      simp only [update_message, hm, patchBodyValid] at hv ⊢
      cases hg : (d.isEmpty || (d.lookup "body").isNone) <;>
        cases hb : truthy ((d.lookup "body").getD .jnull) <;>
          simp_all
  · intro data now st msg hv
    cases data with
    | none => simp [createReqValid] at hv
    | some d =>
      simp only [create_message, createReqValid] at hv ⊢
      cases hg : (d.isEmpty || (d.lookup "body").isNone ||
          (d.lookup "username").isNone) <;>
        cases hb : truthy ((d.lookup "body").getD .jnull) <;>
          cases hu : truthy ((d.lookup "username").getD .jnull) <;>
            simp_all
  · intro id data now st m msg hm hv
    cases data with
    | none => simp [patchBodyValid] at hv
    | some d =>
      simp only [update_message, hm, patchBodyValid] at hv ⊢
      cases hg : (d.isEmpty || (d.lookup "body").isNone) <;>
        cases hb : truthy ((d.lookup "body").getD .jnull) <;>
          simp_all

theorem C2_integrity_rollback_witness :
    createReqValid (some [("body", .jstr "hi"), ("username", .jstr "ana")]) =
        true ∧
    create_message (some [("body", .jstr "hi"), ("username", .jstr "ana")])
        0 emptyStore .integrityError = bad_request emptyStore ∧
    findById oneRowStore 1 = some ⟨1, .jstr "hi", .jstr "ana", 10, none⟩ ∧
    update_message 1 (some [("body", .jstr "new")]) 20 oneRowStore
        .integrityError = bad_request oneRowStore ∧
    create_message (some [("body", .jstr "hi"), ("username", .jstr "ana")])
        0 emptyStore (.otherError "boom") = internal_server_error emptyStore ∧
    update_message 1 (some [("body", .jstr "new")]) 20 oneRowStore
        (.otherError "boom") = internal_server_error oneRowStore :=
  ⟨by decide,
   C2_integrity_rollback.1 _ 0 emptyStore (by decide),
   by decide,
   C2_integrity_rollback.2.1 1 _ 20 oneRowStore
     ⟨1, .jstr "hi", .jstr "ana", 10, none⟩ (by decide) (by decide),
   C2_integrity_rollback.2.2.1 _ 0 emptyStore "boom" (by decide),
   C2_integrity_rollback.2.2.2 1 _ 20 oneRowStore
     ⟨1, .jstr "hi", .jstr "ana", 10, none⟩ "boom" (by decide) (by decide)⟩

/-! ## State-shape lemmas for the mutating handlers -/

/-- The store after a POST is either unchanged (validation failure or
rollback) or extended with exactly one row whose `body` and `username` are
truthy, whose `created_at` is now, and whose `updated_at` is null. -/
theorem create_message_state (data : RequestData) (now : Nat) (st : DBState)
    (commit : CommitOutcome) :
    (create_message data now st commit).state = st ∨
    ∃ b u, truthy b = true ∧ truthy u = true ∧
      (create_message data now st commit).state =
        ⟨st.rows ++ [⟨st.nextId, b, u, now, none⟩], st.nextId + 1⟩ := by
  cases data with
  | none => exact Or.inl rfl
  | some d =>
    simp only [create_message]
    cases hg : (d.isEmpty || (d.lookup "body").isNone ||
        (d.lookup "username").isNone)
    · cases hb : truthy ((d.lookup "body").getD .jnull)
      · left; simp [bad_request]
      · cases hu : truthy ((d.lookup "username").getD .jnull)
        · left; simp [bad_request]
        · cases commit with
          | success =>
            right
            exact ⟨(d.lookup "body").getD .jnull,
                   (d.lookup "username").getD .jnull, hb, hu, by simp [hb, hu]⟩
          | integrityError => left; simp [hb, hu, bad_request]
          | otherError msg => left; simp [hb, hu, internal_server_error]
    · left; simp [bad_request]

/-- The store after a PATCH is either unchanged (missing id, validation
failure, or rollback) or has exactly the row carrying the requested id
rewritten with a truthy new body and `updated_at` = now, pointwise. -/
theorem update_message_state (id : Nat) (data : RequestData) (now : Nat)
    (st : DBState) (commit : CommitOutcome) :
    (update_message id data now st commit).state = st ∨
    ∃ b, truthy b = true ∧
      (update_message id data now st commit).state =
        ⟨st.rows.map (fun r =>
           if r.id == id then ⟨r.id, b, r.username, r.created_at, some now⟩
           else r),
         st.nextId⟩ := by
  cases hm : findById st id with
  | none => left; simp [update_message, hm, not_found]
  | some m =>
    cases data with
    | none => left; simp [update_message, hm, bad_request]
    | some d =>
      simp only [update_message, hm]
      cases hg : (d.isEmpty || (d.lookup "body").isNone)
      · cases hb : truthy ((d.lookup "body").getD .jnull)
        · left; simp [bad_request]
        · cases commit with
          | success =>
            right
            exact ⟨(d.lookup "body").getD .jnull, hb, by simp [hb]⟩
          | integrityError => left; simp [hb, bad_request]
          | otherError msg => left; simp [hb, internal_server_error]
      · left; simp [bad_request]

/-- The store after a DELETE is either unchanged (missing id or rollback) or
has every row carrying the requested id filtered out. -/
theorem delete_message_state (id : Nat) (st : DBState)
    (commit : CommitOutcome) :
    (delete_message id st commit).state = st ∨
    (delete_message id st commit).state =
      ⟨st.rows.filter (fun r => r.id != id), st.nextId⟩ := by
  cases hm : findById st id with
  | none => left; simp [delete_message, hm, not_found]
  | some m =>
    cases commit with
    | success => right; simp [delete_message, hm]
    | integrityError => left; simp [delete_message, hm, internal_server_error]
    | otherError msg => left; simp [delete_message, hm, internal_server_error]

/-! ## Claim C4: non-emptiness of persisted rows -/

/-- C4 counterexample: the schema of `models.py` carries only `nullable=False`
on `body` and `username`, so a direct insert that bypasses the handlers
persists a row whose body is the empty string — the persistence layer does
not reject empty values, only null ones. -/
theorem C4_counterexample :
    storeInsertRaw emptyStore ⟨1, .jstr "", .jstr "x", 0, none⟩ =
        some ⟨[⟨1, .jstr "", .jstr "x", 0, none⟩], 2⟩ ∧
    truthy (JsonValue.jstr "") = false := by
  decide

/-- C4 (amended): the schema rejects null `body`/`username` (`nullable=False`)
but not empty values, so defense-in-depth against empty fields does not hold
at persistence time; the non-emptiness invariant is maintained only by the
handlers, each of which maps a store whose rows all have truthy (non-empty)
`body` and `username` to another such store. -/
theorem C4_row_validity :
    (∀ u, schemaAccepts .jnull u = false) ∧
    (∀ b, schemaAccepts b .jnull = false) ∧
    (∀ data now st commit, RowsValid st →
        RowsValid (create_message data now st commit).state) ∧
    (∀ id data now st commit, RowsValid st →
        RowsValid (update_message id data now st commit).state) ∧
    (∀ id st commit, RowsValid st →
        RowsValid (delete_message id st commit).state) := by
  refine ⟨?_, ?_, ?_, ?_, ?_⟩
  · intro u; simp [schemaAccepts]
  · intro b; simp [schemaAccepts]
  · intro data now st commit hv
    rcases create_message_state data now st commit with h | ⟨b, u, hb, hu, h⟩
    · rw [h]; exact hv
    · rw [h]
      intro m hm
      rcases List.mem_append.1 hm with hold | hnew
      · exact hv m hold
      · rcases List.mem_singleton.1 hnew with rfl
        exact ⟨hb, hu⟩
  · intro id data now st commit hv
    rcases update_message_state id data now st commit with h | ⟨b, hb, h⟩
    · rw [h]; exact hv
    · rw [h]
      intro m hm
      rcases List.mem_map.1 hm with ⟨r, hr, hmap⟩
      by_cases hid : (r.id == id) = true
      · rw [if_pos hid] at hmap
        rcases hmap with rfl
        exact ⟨hb, (hv r hr).2⟩
      · rw [if_neg hid] at hmap
        rcases hmap with rfl
        exact hv r hr
  · intro id st commit hv
    rcases delete_message_state id st commit with h | h
    · rw [h]; exact hv
    · rw [h]
      intro m hm
      exact hv m (List.mem_of_mem_filter hm)

theorem C4_row_validity_witness :
    RowsValid oneRowStore ∧
    RowsValid (create_message
        (some [("body", .jstr "b"), ("username", .jstr "u")]) 11 oneRowStore
        .success).state ∧
    RowsValid (update_message 1 (some [("body", .jstr "n")]) 12 oneRowStore
        .success).state ∧
    RowsValid (delete_message 1 oneRowStore .success).state := by
  have hv : RowsValid oneRowStore := by
    intro m hm
    simp only [oneRowStore] at hm
    rcases List.mem_singleton.1 hm with rfl
    exact ⟨rfl, rfl⟩
  exact ⟨hv,
    C4_row_validity.2.2.1 _ 11 oneRowStore .success hv,
    C4_row_validity.2.2.2.1 1 _ 12 oneRowStore .success hv,
    C4_row_validity.2.2.2.2 1 oneRowStore .success hv⟩

/-! ## Path lemmas for the handlers -/

theorem isEmpty_false_of_lookup {d : List (String × JsonValue)} {k : String}
    {v : JsonValue} (h : d.lookup k = some v) : d.isEmpty = false := by
  cases d with
  | nil => simp [List.lookup] at h
  | cons a l => rfl

/-- A POST failing `create_message`'s validation is answered by
`bad_request` with the store untouched, whatever the commit outcome. -/
theorem create_message_invalid (data : RequestData) (now : Nat) (st : DBState)
    (commit : CommitOutcome) (hv : createReqValid data = false) :
    create_message data now st commit = bad_request st := by
  cases data with
  | none => rfl
  | some d =>
    simp only [create_message, createReqValid] at hv ⊢
    cases hg : (d.isEmpty || (d.lookup "body").isNone ||
        (d.lookup "username").isNone) <;>
      cases hb : truthy ((d.lookup "body").getD .jnull) <;>
        cases hu : truthy ((d.lookup "username").getD .jnull) <;>
          simp_all

/-- A POST passing validation, with a successful commit, creates exactly one
row carrying the fresh primary key, the request's `body` and `username`,
`created_at` = now and a null `updated_at`, and answers 201 with its JSON. -/
theorem create_message_valid (d : List (String × JsonValue)) (b u : JsonValue)
    (now : Nat) (st : DBState)
    (hb : d.lookup "body" = some b) (hu : d.lookup "username" = some u)
    (htb : truthy b = true) (htu : truthy u = true) :
    create_message (some d) now st .success =
      ⟨201, Message.to_dict ⟨st.nextId, b, u, now, none⟩,
       ⟨st.rows ++ [⟨st.nextId, b, u, now, none⟩], st.nextId + 1⟩⟩ := by
  simp [create_message, hb, hu, htb, htu, isEmpty_false_of_lookup hb]

/-- A PATCH for an id absent from the store is answered by `not_found` with
the store untouched, whatever the request data and commit outcome. -/
theorem update_message_not_found (id : Nat) (data : RequestData) (now : Nat)
    (st : DBState) (commit : CommitOutcome) (h : findById st id = none) :
    update_message id data now st commit = not_found st := by
  simp only [update_message, h]

/-- A PATCH for an existing id whose data fails the body validation is
answered by `bad_request` with the store untouched, whatever the commit
outcome. -/
theorem update_message_invalid (id : Nat) (data : RequestData) (now : Nat)
    (st : DBState) (commit : CommitOutcome) (m : Message)
    (hm : findById st id = some m) (hv : patchBodyValid data = false) :
    update_message id data now st commit = bad_request st := by
  cases data with
  | none => simp [update_message, hm]
  | some d =>
    simp only [update_message, hm, patchBodyValid] at hv ⊢
    cases hg : (d.isEmpty || (d.lookup "body").isNone) <;>
      cases hb : truthy ((d.lookup "body").getD .jnull) <;>
        simp_all

/-- A PATCH for an existing id with a truthy new body and a successful commit
rewrites exactly the rows carrying that id (body and `updated_at` only) and
answers 200 with the JSON of the updated row. -/
theorem update_message_valid (id : Nat) (d : List (String × JsonValue))
    (b : JsonValue) (now : Nat) (st : DBState) (m : Message)
    (hm : findById st id = some m) (hb : d.lookup "body" = some b)
    (htb : truthy b = true) :
    update_message id (some d) now st .success =
      ⟨200, Message.to_dict ⟨m.id, b, m.username, m.created_at, some now⟩,
       ⟨st.rows.map (fun r =>
          if r.id == id then ⟨r.id, b, r.username, r.created_at, some now⟩
          else r),
        st.nextId⟩⟩ := by
  simp [update_message, hm, hb, htb, isEmpty_false_of_lookup hb]

/-! ## Claim C8: POST with missing or empty fields -/

/-- C8: a POST whose JSON object misses the `body` or `username` key, or
carries the empty string for either, is answered 400 with the JSON error
object, and the store is left completely unchanged — independently of the
commit outcome, which is never reached. -/
theorem C8_post_missing_or_empty (d : List (String × JsonValue)) (now : Nat)
    (st : DBState) (commit : CommitOutcome)
    (h : d.lookup "body" = none ∨ d.lookup "username" = none ∨
         d.lookup "body" = some (.jstr "") ∨
         d.lookup "username" = some (.jstr "")) :
    (create_message (some d) now st commit).status = 400 ∧
    (create_message (some d) now st commit).respBody = errJson "Bad Request" ∧
    (create_message (some d) now st commit).state = st := by
  have hts : truthy (.jstr "") = false := by decide
  have hv : createReqValid (some d) = false := by
    rcases h with h | h | h | h <;> simp [createReqValid, h, hts]
  rw [create_message_invalid (some d) now st commit hv]
  exact ⟨rfl, rfl, rfl⟩

theorem C8_post_missing_or_empty_witness :
    ((List.lookup "body" [("username", JsonValue.jstr "bob")]) = none ∨
     (List.lookup "username" [("username", JsonValue.jstr "bob")]) = none ∨
     (List.lookup "body" [("username", JsonValue.jstr "bob")]) =
        some (.jstr "") ∨
     (List.lookup "username" [("username", JsonValue.jstr "bob")]) =
        some (.jstr "")) ∧
    (create_message (some [("username", .jstr "bob")]) 4 oneRowStore
        .success).status = 400 ∧
    (create_message (some [("body", .jstr ""), ("username", .jstr "x")]) 4
        oneRowStore .success).state = oneRowStore :=
  ⟨Or.inl (by decide),
   (C8_post_missing_or_empty [("username", .jstr "bob")] 4 oneRowStore
      .success (Or.inl (by decide))).1,
   (C8_post_missing_or_empty [("body", .jstr ""), ("username", .jstr "x")] 4
      oneRowStore .success (Or.inr (Or.inr (Or.inl (by decide))))).2.2⟩

/-! ## Claim C10: validation is by truthiness, not by type -/

/-- C10: the POST and PATCH handlers validate `body` and `username` purely by
Python truthiness, with no type check: any present truthy JSON value (number,
non-empty array, ...) is accepted and persisted as-is, while any present
falsy value (`null`, `""`, `0`, `false`, `[]`) is rejected with 400 exactly
as an empty string is, the store staying unchanged. -/
theorem C10_truthiness_validation :
    (truthy .jnull = false ∧ truthy (.jstr "") = false ∧
     truthy (.jnum 0) = false ∧ truthy (.jbool false) = false ∧
     truthy (.jarr []) = false) ∧
    (∀ d b u now st, d.lookup "body" = some b →
        d.lookup "username" = some u → truthy b = true → truthy u = true →
        (create_message (some d) now st .success).status = 201 ∧
        (create_message (some d) now st .success).state.rows =
          st.rows ++ [⟨st.nextId, b, u, now, none⟩]) ∧
    (∀ d b u now st commit, d.lookup "body" = some b →
        d.lookup "username" = some u →
        truthy b = false ∨ truthy u = false →
        create_message (some d) now st commit = bad_request st) ∧
    (∀ id d b now st m, findById st id = some m → d.lookup "body" = some b →
        truthy b = true →
        (update_message id (some d) now st .success).status = 200 ∧
        (update_message id (some d) now st .success).state.rows =
          st.rows.map (fun r =>
            if r.id == id then ⟨r.id, b, r.username, r.created_at, some now⟩
            else r)) ∧
    (∀ id d b now st m commit, findById st id = some m →
        d.lookup "body" = some b → truthy b = false →
        update_message id (some d) now st commit = bad_request st) := by
  refine ⟨by decide, ?_, ?_, ?_, ?_⟩
  · intro d b u now st hb hu htb htu
    rw [create_message_valid d b u now st hb hu htb htu]
    exact ⟨rfl, rfl⟩
  · intro d b u now st commit hb hu h
    refine create_message_invalid (some d) now st commit ?_
    rcases h with h | h <;> simp [createReqValid, hb, hu, h]
  · intro id d b now st m hm hb htb
    rw [update_message_valid id d b now st m hm hb htb]
    exact ⟨rfl, rfl⟩
  · intro id d b now st m commit hm hb htb
    refine update_message_invalid id (some d) now st commit m hm ?_
    simp [patchBodyValid, hb, htb]

theorem C10_truthiness_validation_witness :
    (List.lookup "body"
        [("body", JsonValue.jnum 5), ("username", JsonValue.jarr [.jnull])] =
      some (.jnum 5)) ∧
    (create_message
        (some [("body", .jnum 5), ("username", .jarr [.jnull])]) 9 emptyStore
        .success).status = 201 ∧
    (create_message
        (some [("body", .jnum 5), ("username", .jarr [.jnull])]) 9 emptyStore
        .success).state.rows =
      [⟨1, .jnum 5, .jarr [.jnull], 9, none⟩] ∧
    create_message (some [("body", .jnum 0), ("username", .jstr "x")]) 9
        emptyStore .success = bad_request emptyStore ∧
    (update_message 1 (some [("body", .jobj [("k", .jnull)])]) 21 oneRowStore
        .success).status = 200 ∧
    update_message 1 (some [("body", .jbool false)]) 21 oneRowStore
        .success = bad_request oneRowStore := by
  refine ⟨by decide, ?_, ?_, ?_, ?_, ?_⟩
  · exact (C10_truthiness_validation.2.1
      [("body", .jnum 5), ("username", .jarr [.jnull])] (.jnum 5)
      (.jarr [.jnull]) 9 emptyStore (by decide) (by decide) (by decide)
      (by decide)).1
  · have := (C10_truthiness_validation.2.1
      [("body", .jnum 5), ("username", .jarr [.jnull])] (.jnum 5)
      (.jarr [.jnull]) 9 emptyStore (by decide) (by decide) (by decide)
      (by decide)).2
    rw [this]; decide
  · exact C10_truthiness_validation.2.2.1
      [("body", .jnum 0), ("username", .jstr "x")] (.jnum 0) (.jstr "x") 9
      emptyStore .success (by decide) (by decide) (Or.inl (by decide))
  · exact (C10_truthiness_validation.2.2.2.1 1 [("body", .jobj [("k", .jnull)])]
      (.jobj [("k", .jnull)]) 21
      oneRowStore ⟨1, .jstr "hi", .jstr "ana", 10, none⟩ (by decide)
      (by decide) (by decide)).1
  · exact C10_truthiness_validation.2.2.2.2 1 [("body", .jbool false)]
      (.jbool false) 21 oneRowStore
      ⟨1, .jstr "hi", .jstr "ana", 10, none⟩ .success (by decide) (by decide)
      (by decide)

/-! ## Claim C5: PATCH frame property -/

/-- C5: a successful PATCH on an existing id with a truthy (non-empty) new
body answers 200 with the updated row's JSON and changes only that row's
`body` (to the new value) and `updated_at` (stamped to now), leaving its
`username`, `created_at` and `id` unchanged, and leaving every other row —
and the id counter — unchanged, position by position. -/
theorem C5_patch_frame (id : Nat) (d : List (String × JsonValue))
    (b : JsonValue) (now : Nat) (st : DBState) (m : Message)
    (hm : findById st id = some m) (hb : d.lookup "body" = some b)
    (htb : truthy b = true) :
    (update_message id (some d) now st .success).status = 200 ∧
    (update_message id (some d) now st .success).respBody =
      Message.to_dict ⟨m.id, b, m.username, m.created_at, some now⟩ ∧
    (update_message id (some d) now st .success).state.nextId = st.nextId ∧
    (update_message id (some d) now st .success).state.rows.length =
      st.rows.length ∧
    (∀ (i : Nat) (r0 : Message), st.rows[i]? = some r0 → r0.id ≠ id →
      (update_message id (some d) now st .success).state.rows[i]? =
        some r0) ∧
    (∀ (i : Nat) (r0 : Message), st.rows[i]? = some r0 → r0.id = id →
      (update_message id (some d) now st .success).state.rows[i]? =
        some ⟨r0.id, b, r0.username, r0.created_at, some now⟩) := by
  rw [update_message_valid id d b now st m hm hb htb]
  refine ⟨rfl, rfl, rfl, by simp, ?_, ?_⟩
  · intro i r0 h0 hne
    simp [List.getElem?_map, h0, hne]
  · intro i r0 h0 heq
    simp [List.getElem?_map, h0, heq]

theorem C5_patch_frame_witness :
    findById twoRowStore 1 =
        some ⟨1, .jstr "hi", .jstr "ana", 10, none⟩ ∧
    (update_message 1 (some [("body", .jstr "new")]) 30 twoRowStore
        .success).status = 200 ∧
    (update_message 1 (some [("body", .jstr "new")]) 30 twoRowStore
        .success).state.rows[0]? =
      some ⟨1, .jstr "new", .jstr "ana", 10, some 30⟩ ∧
    (update_message 1 (some [("body", .jstr "new")]) 30 twoRowStore
        .success).state.rows[1]? =
      some ⟨2, .jstr "yo", .jstr "bob", 11, none⟩ :=
  ⟨by decide,
   (C5_patch_frame 1 [("body", .jstr "new")] (.jstr "new") 30 twoRowStore
      ⟨1, .jstr "hi", .jstr "ana", 10, none⟩ (by decide) (by decide)
      (by decide)).1,
   (C5_patch_frame 1 [("body", .jstr "new")] (.jstr "new") 30 twoRowStore
      ⟨1, .jstr "hi", .jstr "ana", 10, none⟩ (by decide) (by decide)
      (by decide)).2.2.2.2.2 0 ⟨1, .jstr "hi", .jstr "ana", 10, none⟩
      (by decide) rfl,
   (C5_patch_frame 1 [("body", .jstr "new")] (.jstr "new") 30 twoRowStore
      ⟨1, .jstr "hi", .jstr "ana", 10, none⟩ (by decide) (by decide)
      (by decide)).2.2.2.2.1 1 ⟨2, .jstr "yo", .jstr "bob", 11, none⟩
      (by decide) (by decide)⟩

/-- Rewriting the rows with a given id preserves the primary-key lookup: the
found row is the rewritten one. -/
theorem findById_after_update (id : Nat) (b : JsonValue) (now : Nat)
    (st : DBState) (m : Message) (hm : findById st id = some m) :
    findById
      ⟨st.rows.map (fun r =>
         if r.id == id then ⟨r.id, b, r.username, r.created_at, some now⟩
         else r),
       st.nextId⟩ id =
      some ⟨m.id, b, m.username, m.created_at, some now⟩ := by
  unfold findById at hm ⊢
  have hid : (m.id == id) = true := by
    have := List.find?_some hm
    simpa using this
  rw [List.find?_map]
  have hcomp : ((fun r : Message => r.id == id) ∘
      (fun r : Message =>
        if r.id == id then ⟨r.id, b, r.username, r.created_at, some now⟩
        else r)) = fun r : Message => r.id == id := by
    funext r
    by_cases h : r.id = id
    · simp [h]
    · simp [h]
  rw [hcomp, hm]
  have hid2 : m.id = id := by simpa using hid
  simp [hid2]

/-! ## Claim C6: repeated PATCH is idempotent modulo updated_at -/

/-- C6: repeating a successful PATCH with the identical payload succeeds
again and leaves every field of every row equal to the state after one
application, except the patched row's `updated_at`, which is restamped to
the time of the second application. -/
theorem C6_patch_idempotent (id : Nat) (d : List (String × JsonValue))
    (b : JsonValue) (now1 now2 : Nat) (st : DBState) (m : Message)
    (hm : findById st id = some m) (hb : d.lookup "body" = some b)
    (htb : truthy b = true) :
    (update_message id (some d) now2
        (update_message id (some d) now1 st .success).state .success).status =
      200 ∧
    (update_message id (some d) now2
        (update_message id (some d) now1 st .success).state
        .success).state.nextId =
      (update_message id (some d) now1 st .success).state.nextId ∧
    (update_message id (some d) now2
        (update_message id (some d) now1 st .success).state
        .success).state.rows.length =
      (update_message id (some d) now1 st .success).state.rows.length ∧
    (∀ (i : Nat) (r1 : Message),
      (update_message id (some d) now1 st .success).state.rows[i]? =
        some r1 →
      (r1.id ≠ id →
        (update_message id (some d) now2
          (update_message id (some d) now1 st .success).state
          .success).state.rows[i]? = some r1) ∧
      (r1.id = id →
        (update_message id (some d) now2
          (update_message id (some d) now1 st .success).state
          .success).state.rows[i]? =
          some ⟨r1.id, r1.body, r1.username, r1.created_at, some now2⟩)) := by
  have h1 := update_message_valid id d b now1 st m hm hb htb
  have hm1 : findById (update_message id (some d) now1 st .success).state id =
      some ⟨m.id, b, m.username, m.created_at, some now1⟩ := by
    rw [h1]
    exact findById_after_update id b now1 st m hm
  have h2 := update_message_valid id d b now2
    (update_message id (some d) now1 st .success).state
    ⟨m.id, b, m.username, m.created_at, some now1⟩ hm1 hb htb
  refine ⟨by rw [h2], by rw [h2], by rw [h2]; simp, ?_⟩
  intro i r1 hr1
  have hr1' := hr1
  rw [h1] at hr1'
  simp only [List.getElem?_map] at hr1'
  constructor
  · intro hne
    rw [h2]
    simp [List.getElem?_map, hr1, hne]
  · intro heq
    cases h0 : st.rows[i]? with
    | none => rw [h0] at hr1'; simp at hr1'
    | some r0 =>
      rw [h0] at hr1'
      simp only [Option.map_some'] at hr1'
      have hb1 : r1.body = b := by
        by_cases hid0 : (r0.id == id) = true
        · rw [if_pos hid0] at hr1'
          have hx := Option.some_inj.1 hr1'
          simp [← hx]
        · rw [if_neg hid0] at hr1'
          have hx := Option.some_inj.1 hr1'
          exfalso
          apply hid0
          rw [← hx] at heq
          simp [heq]
      rw [h2]
      simp [List.getElem?_map, hr1, heq, hb1]

theorem C6_patch_idempotent_witness :
    (update_message 2 (some [("body", .jstr "z")]) 41
        (update_message 2 (some [("body", .jstr "z")]) 40 twoRowStore
          .success).state .success).status = 200 ∧
    (update_message 2 (some [("body", .jstr "z")]) 40 twoRowStore
        .success).state.rows[1]? =
      some ⟨2, .jstr "z", .jstr "bob", 11, some 40⟩ ∧
    (update_message 2 (some [("body", .jstr "z")]) 41
        (update_message 2 (some [("body", .jstr "z")]) 40 twoRowStore
          .success).state .success).state.rows[1]? =
      some ⟨2, .jstr "z", .jstr "bob", 11, some 41⟩ ∧
    (update_message 2 (some [("body", .jstr "z")]) 41
        (update_message 2 (some [("body", .jstr "z")]) 40 twoRowStore
          .success).state .success).state.rows[0]? =
      some ⟨1, .jstr "hi", .jstr "ana", 10, none⟩ :=
  ⟨(C6_patch_idempotent 2 [("body", .jstr "z")] (.jstr "z") 40 41 twoRowStore
      ⟨2, .jstr "yo", .jstr "bob", 11, none⟩ (by decide) (by decide)
      (by decide)).1,
   by decide,
   ((C6_patch_idempotent 2 [("body", .jstr "z")] (.jstr "z") 40 41 twoRowStore
      ⟨2, .jstr "yo", .jstr "bob", 11, none⟩ (by decide) (by decide)
      (by decide)).2.2.2 1 ⟨2, .jstr "z", .jstr "bob", 11, some 40⟩
      (by decide)).2 rfl,
   ((C6_patch_idempotent 2 [("body", .jstr "z")] (.jstr "z") 40 41 twoRowStore
      ⟨2, .jstr "yo", .jstr "bob", 11, none⟩ (by decide) (by decide)
      (by decide)).2.2.2 0 ⟨1, .jstr "hi", .jstr "ana", 10, none⟩
      (by decide)).1 (by decide)⟩

/-- A DELETE for an id absent from the store is answered by `not_found` with
the store untouched, whatever the commit outcome. -/
theorem delete_message_not_found (id : Nat) (st : DBState)
    (commit : CommitOutcome) (h : findById st id = none) :
    delete_message id st commit = not_found st := by
  simp [delete_message, h]

/-! ## Claim C9: DELETE semantics -/

/-- C9: deleting an existing id answers 200 with the exact success message
and removes exactly that row (primary keys being unique): every other row
survives, the removed id no longer resolves, and any subsequent PATCH or
DELETE of the same id — a second DELETE included — answers 404 and leaves
the store unchanged; deleting a nonexistent id answers 404 and leaves the
store unchanged. -/
theorem C9_delete (id : Nat) (st : DBState)
    (hnd : (st.rows.map Message.id).Nodup) :
    (∀ m : Message, findById st id = some m →
      (delete_message id st .success).status = 200 ∧
      (delete_message id st .success).respBody =
        .jobj [("message",
          .jstr ("Message with id " ++ toString id ++
            " successfully deleted"))] ∧
      (delete_message id st .success).state.rows.length + 1 =
        st.rows.length ∧
      (∀ r ∈ (delete_message id st .success).state.rows,
        r ∈ st.rows ∧ r.id ≠ id) ∧
      (∀ r ∈ st.rows, r.id ≠ id →
        r ∈ (delete_message id st .success).state.rows) ∧
      findById (delete_message id st .success).state id = none ∧
      (∀ data now commit,
        update_message id data now (delete_message id st .success).state
          commit = not_found (delete_message id st .success).state) ∧
      (∀ commit,
        delete_message id (delete_message id st .success).state commit =
          not_found (delete_message id st .success).state)) ∧
    (findById st id = none → ∀ commit,
      delete_message id st commit = not_found st) := by
  constructor
  · intro m hm
    have hmem : m ∈ st.rows := List.mem_of_find?_eq_some hm
    have hmid : m.id = id := by
      have := List.find?_some hm
      simpa using this
    have hdel : delete_message id st .success =
        ⟨200,
         .jobj [("message",
           .jstr ("Message with id " ++ toString id ++
             " successfully deleted"))],
         ⟨st.rows.filter (fun r => r.id != id), st.nextId⟩⟩ := by
      simp [delete_message, hm]
    have hlen : (st.rows.filter (fun r => r.id != id)).length + 1 =
        st.rows.length := by
      have hsplit := List.length_eq_length_filter_add
        (l := st.rows) (fun r => r.id != id)
      have hfun : (fun r : Message => !(r.id != id)) =
          fun r : Message => r.id == id := by
        funext r
        simp [bne]
      rw [hfun] at hsplit
      have hone : (st.rows.filter (fun r => r.id == id)).length = 1 := by
        have hrep : (st.rows.filter (fun r => r.id == id)).map Message.id =
            List.replicate
              (st.rows.filter (fun r => r.id == id)).length id := by
          refine List.eq_replicate_iff.2 ⟨by simp, ?_⟩
          intro b hb
          rcases List.mem_map.1 hb with ⟨r, hr, rfl⟩
          have := (List.mem_filter.1 hr).2
          simpa using this
        have hsub : ((st.rows.filter (fun r => r.id == id)).map
            Message.id).Nodup :=
          hnd.sublist ((List.filter_sublist _).map _)
        rw [hrep] at hsub
        have hle : (st.rows.filter (fun r => r.id == id)).length ≤ 1 :=
          List.nodup_replicate.1 hsub
        have hpos : 0 < (st.rows.filter (fun r => r.id == id)).length := by
          have : m ∈ st.rows.filter (fun r => r.id == id) :=
            List.mem_filter.2 ⟨hmem, by simp [hmid]⟩
          exact List.length_pos.2 (List.ne_nil_of_mem this)
        omega
      omega
    have hnone : findById
        ⟨st.rows.filter (fun r => r.id != id), st.nextId⟩ id = none := by
      unfold findById
      refine List.find?_eq_none.2 ?_
      intro r hr
      have := (List.mem_filter.1 hr).2
      simp only [bne_iff_ne, ne_eq] at this
      simp [this]
    refine ⟨by rw [hdel], by rw [hdel], by rw [hdel]; exact hlen, ?_, ?_,
      by rw [hdel]; exact hnone, ?_, ?_⟩
    · intro r hr
      rw [hdel] at hr
      have := List.mem_filter.1 hr
      exact ⟨this.1, by simpa using this.2⟩
    · intro r hr hne
      rw [hdel]
      exact List.mem_filter.2 ⟨hr, by simpa using hne⟩
    · intro data now commit
      refine update_message_not_found id data now _ commit ?_
      rw [hdel]
      exact hnone
    · intro commit
      refine delete_message_not_found id _ commit ?_
      rw [hdel]
      exact hnone
  · intro hm commit
    exact delete_message_not_found id st commit hm

theorem C9_delete_witness :
    (delete_message 1 oneRowStore .success).status = 200 ∧
    (delete_message 1 oneRowStore .success).respBody =
      .jobj [("message",
        .jstr "Message with id 1 successfully deleted")] ∧
    (delete_message 1 oneRowStore .success).state.rows = [] ∧
    delete_message 1 (delete_message 1 oneRowStore .success).state .success =
      not_found (delete_message 1 oneRowStore .success).state ∧
    delete_message 99 oneRowStore .success = not_found oneRowStore := by
  have h := (C9_delete 1 oneRowStore (by decide)).1
    ⟨1, .jstr "hi", .jstr "ana", 10, none⟩ (by decide)
  refine ⟨h.1, ?_, by decide, h.2.2.2.2.2.2.2 .success, ?_⟩
  · have := h.2.1
    simpa using this
  · exact (C9_delete 99 oneRowStore (by decide)).2 (by decide) .success

/-! ## Permutation facts about the ORDER BY -/

theorem insertByCreated_perm (x : Message) (l : List Message) :
    List.Perm (insertByCreated x l) (x :: l) := by
  induction l with
  | nil => simp [insertByCreated]
  | cons y ys ih =>
    simp only [insertByCreated]
    by_cases h : x.created_at ≤ y.created_at
    · rw [if_pos h]
    · rw [if_neg h]
      exact (ih.cons y).trans (List.Perm.swap x y ys)

theorem orderByCreatedAtAsc_perm (l : List Message) :
    List.Perm (orderByCreatedAtAsc l) l := by
  induction l with
  | nil => simp [orderByCreatedAtAsc]
  | cons x xs ih =>
    simp only [orderByCreatedAtAsc]
    exact (insertByCreated_perm x (orderByCreatedAtAsc xs)).trans (ih.cons x)

/-! ## Claim C7: POST creates exactly one new row -/

/-- C7: a valid POST answers 201 with the JSON of the created message; the
new store is the old one plus exactly one row whose `body` and `username`
are the request's values, whose id is fresh (never used by any existing
row) and unique in the store, whose `created_at` is set to now, and whose
`updated_at` is null; a subsequent GET lists exactly one entry carrying
the new id, and it is that row. -/
theorem C7_create (d : List (String × JsonValue)) (b u : JsonValue)
    (now : Nat) (st : DBState) (hWF : st.WF)
    (hb : d.lookup "body" = some b) (hu : d.lookup "username" = some u)
    (htb : truthy b = true) (htu : truthy u = true) :
    (create_message (some d) now st .success).status = 201 ∧
    (create_message (some d) now st .success).respBody =
      Message.to_dict ⟨st.nextId, b, u, now, none⟩ ∧
    (create_message (some d) now st .success).state.rows =
      st.rows ++ [⟨st.nextId, b, u, now, none⟩] ∧
    (∀ r ∈ st.rows, r.id ≠ st.nextId) ∧
    (create_message (some d) now st .success).state.WF ∧
    (⟨st.nextId, b, u, now, none⟩ : Message) ∈
      orderByCreatedAtAsc
        (create_message (some d) now st .success).state.rows ∧
    (orderByCreatedAtAsc
        (create_message (some d) now st .success).state.rows).countP
      (fun r => r.id == st.nextId) = 1 := by
  have hc := create_message_valid d b u now st hb hu htb htu
  have hfresh : ∀ r ∈ st.rows, r.id ≠ st.nextId := by
    intro r hr
    exact Nat.ne_of_lt (hWF.2 r hr)
  have hrows : (create_message (some d) now st .success).state.rows =
      st.rows ++ [⟨st.nextId, b, u, now, none⟩] := by rw [hc]
  refine ⟨by rw [hc], by rw [hc], hrows, hfresh, ?_, ?_, ?_⟩
  · rw [hc]
    constructor
    · simp only [List.map_append, List.map_cons, List.map_nil]
      rw [List.nodup_append]
      refine ⟨hWF.1, List.nodup_singleton _, ?_⟩
      intro a ha hb2
      rcases List.mem_map.1 ha with ⟨r, hr, rfl⟩
      rcases List.mem_singleton.1 hb2 with h
      exact hfresh r hr h
    · intro m hm
      rcases List.mem_append.1 hm with h | h
      · exact Nat.lt_succ_of_lt (hWF.2 m h)
      · rcases List.mem_singleton.1 h with rfl
        exact Nat.lt_succ_self _
  · rw [hrows]
    exact (orderByCreatedAtAsc_perm _).mem_iff.2
      (List.mem_append.2 (Or.inr (List.mem_singleton.2 rfl)))
  · rw [hrows]
    rw [(orderByCreatedAtAsc_perm _).countP_eq]
    rw [List.countP_append]
    have h0 : st.rows.countP (fun r => r.id == st.nextId) = 0 := by
      refine List.countP_eq_zero.2 ?_
      intro r hr
      simpa using hfresh r hr
    rw [h0]
    simp

theorem C7_create_witness :
    (create_message (some [("body", .jstr "hey"), ("username", .jstr "zoe")])
        12 twoRowStore .success).status = 201 ∧
    (create_message (some [("body", .jstr "hey"), ("username", .jstr "zoe")])
        12 twoRowStore .success).state.rows =
      twoRowStore.rows ++ [⟨3, .jstr "hey", .jstr "zoe", 12, none⟩] ∧
    (orderByCreatedAtAsc
        (create_message (some [("body", .jstr "hey"), ("username", .jstr "zoe")])
          12 twoRowStore .success).state.rows).countP
      (fun r => r.id == 3) = 1 := by
  have h := C7_create [("body", .jstr "hey"), ("username", .jstr "zoe")]
    (.jstr "hey") (.jstr "zoe") 12 twoRowStore (by decide) (by decide)
    (by decide) (by decide) (by decide)
  exact ⟨h.1, h.2.2.1, h.2.2.2.2.2.2⟩

/-- Inserting a row whose id is smaller than every id of an already
lexicographically ordered list (ascending `created_at`, ties by id)
preserves that order: the stable insertion places the new row before every
row with equal `created_at`. -/
theorem pairwise_lex_insertByCreated (x : Message) (l : List Message)
    (hl : l.Pairwise createdIdLex) (hx : ∀ y ∈ l, x.id < y.id) :
    (insertByCreated x l).Pairwise createdIdLex := by
  induction l with
  | nil => simp [insertByCreated]
  | cons y ys ih =>
    rcases List.pairwise_cons.1 hl with ⟨hy, hys⟩
    simp only [insertByCreated]
    by_cases h : x.created_at ≤ y.created_at
    · rw [if_pos h]
      have hle_z : ∀ z ∈ y :: ys, x.created_at ≤ z.created_at := by
        intro z hz
        rcases List.mem_cons.1 hz with rfl | hz
        · exact h
        · rcases hy z hz with hlt | ⟨heq, _⟩
          · exact le_trans h (le_of_lt hlt)
          · exact le_trans h (le_of_eq heq)
      refine List.pairwise_cons.2 ⟨?_, hl⟩
      intro z hz
      rcases Nat.lt_or_ge x.created_at z.created_at with hlt | hge
      · exact Or.inl hlt
      · exact Or.inr ⟨le_antisymm (hle_z z hz) hge, hx z hz⟩
    · rw [if_neg h]
      have hlt : y.created_at < x.created_at := Nat.lt_of_not_le h
      refine List.pairwise_cons.2
        ⟨?_, ih hys (fun z hz => hx z (List.mem_cons_of_mem y hz))⟩
      intro z hz
      rcases List.mem_cons.1 ((insertByCreated_perm x ys).mem_iff.1 hz) with
        rfl | hz'
      · exact Or.inl hlt
      · exact hy z hz'

/-- Sorting rows whose ids ascend in list order yields a list ordered by
`created_at` ascending with ties in id (= insertion) order. -/
theorem orderByCreatedAtAsc_pairwise (l : List Message)
    (h : l.Pairwise (fun a b => a.id < b.id)) :
    (orderByCreatedAtAsc l).Pairwise createdIdLex := by
  induction l with
  | nil => simp [orderByCreatedAtAsc]
  | cons x xs ih =>
    rcases List.pairwise_cons.1 h with ⟨hx, hxs⟩
    simp only [orderByCreatedAtAsc]
    refine pairwise_lex_insertByCreated x _ (ih hxs) ?_
    intro y hy
    exact hx y ((orderByCreatedAtAsc_perm xs).mem_iff.1 hy)

/-! ## Claim C3: GET /messages -/

/-- C3: for every store whose rows carry ascending ids (which insertion
order guarantees), GET /messages answers 200 with a JSON array listing
every stored message and nothing else (a permutation of the rows), sorted
by `created_at` ascending with ties in insertion/id order; the store is
untouched and an empty store yields the empty array, never an error. -/
theorem C3_get_messages (st : DBState)
    (hid : st.rows.Pairwise (fun a b => a.id < b.id)) :
    (get_messages st).status = 200 ∧
    (get_messages st).state = st ∧
    (get_messages st).respBody =
      .jarr ((orderByCreatedAtAsc st.rows).map Message.to_dict) ∧
    List.Perm (orderByCreatedAtAsc st.rows) st.rows ∧
    (orderByCreatedAtAsc st.rows).Pairwise
      (fun a b => a.created_at ≤ b.created_at) ∧
    (orderByCreatedAtAsc st.rows).Pairwise createdIdLex ∧
    (st.rows = [] → (get_messages st).respBody = .jarr []) := by
  refine ⟨rfl, rfl, rfl, orderByCreatedAtAsc_perm _, ?_,
    orderByCreatedAtAsc_pairwise _ hid, ?_⟩
  · refine (orderByCreatedAtAsc_pairwise _ hid).imp ?_
    intro a b hab
    rcases hab with hlt | ⟨heq, _⟩
    · exact le_of_lt hlt
    · exact le_of_eq heq
  · intro h
    simp [get_messages, h, orderByCreatedAtAsc]

theorem C3_get_messages_witness :
    (get_messages tieStore).status = 200 ∧
    List.Perm (orderByCreatedAtAsc tieStore.rows) tieStore.rows ∧
    (orderByCreatedAtAsc tieStore.rows).Pairwise createdIdLex ∧
    orderByCreatedAtAsc tieStore.rows =
      [⟨2, .jstr "b", .jstr "v", 3, none⟩,
       ⟨1, .jstr "a", .jstr "u", 5, none⟩,
       ⟨3, .jstr "c", .jstr "w", 5, none⟩] := by
  have h := C3_get_messages tieStore (by decide)
  exact ⟨h.1, h.2.2.2.1, h.2.2.2.2.2.1, by decide⟩
